import Mathlib

/-!
Verification of the audit-report pipeline (src/audit.py) against its
specification.  The program is shallowly embedded: Python strings are
`List Char` (a Python `str` is a sequence of code points), Python float
amounts are exact rationals (`Q` below), pandas rows are records of
optional cells, exceptions are `Except`/`Option`, and the per-statement
control flow of the serving code is a small step function.  Every
definition is executable so that concrete runs can be settled by `decide`.
-/

/-! ## Python string primitives over `List Char`

Core `String` operations do not reduce well inside the kernel, so the
embedding works with the underlying character lists throughout.  The
operations below mirror the Python methods used by the source:
`str.split`, `str.replace`, `str.strip`, `str.lower`, `str.upper`, and
the substring test `pat in s`.
-/

/-- Decidable equality on `Except`, for settling concrete runs of the
fallible pipeline stages by `decide`. -/
instance exceptDecEq {ε α : Type} [DecidableEq ε] [DecidableEq α] :
    DecidableEq (Except ε α) := fun x y =>
  match x, y with
  | Except.ok a, Except.ok b =>
    if h : a = b then isTrue (by rw [h]) else isFalse (fun hh => by cases hh; exact h rfl)
  | Except.error a, Except.error b =>
    if h : a = b then isTrue (by rw [h]) else isFalse (fun hh => by cases hh; exact h rfl)
  | Except.ok _, Except.error _ => isFalse (fun hh => by cases hh)
  | Except.error _, Except.ok _ => isFalse (fun hh => by cases hh)

/-- Python `s.split(c)` for a single-character separator (auxiliary). -/
def splitOnCharAux (c : Char) : List Char → List Char → List (List Char)
  | [], acc => [acc.reverse]
  | x :: xs, acc =>
    if x = c then acc.reverse :: splitOnCharAux c xs []
    else splitOnCharAux c xs (x :: acc)

/-- Python `s.split(c)` for a single-character separator. -/
def splitOnChar (c : Char) (l : List Char) : List (List Char) :=
  splitOnCharAux c l []

/-- Fuel-driven worker for `replaceL`; the fuel bounds the number of scan
steps so that the recursion is structural and kernel-reducible. -/
def replFuel (pat rep : List Char) : Nat → List Char → List Char
  | 0, l => l
  | _ + 1, [] => []
  | n + 1, x :: xs =>
    if pat.isPrefixOf (x :: xs) then rep ++ replFuel pat rep n ((x :: xs).drop pat.length)
    else x :: replFuel pat rep n xs

/-- Python `s.replace(pat, rep)`: left-to-right, non-overlapping
replacement of every occurrence.  (Python replaces at every position when
`pat` is empty; the source only replaces non-empty labels, and the empty
pattern is mapped to the identity here.) -/
def replaceL (pat rep l : List Char) : List Char :=
  if pat = [] then l else replFuel pat rep l.length l

/-- Python `s.strip()`: drop whitespace from both ends. -/
def stripL (l : List Char) : List Char :=
  ((l.dropWhile Char.isWhitespace).reverse.dropWhile Char.isWhitespace).reverse

/-- Python `pat in s`: contiguous-substring test. -/
def subListB (pat hay : List Char) : Bool :=
  hay.tails.any (fun t => pat.isPrefixOf t)

/-- Python `s.lower()`. -/
def toLowerL (l : List Char) : List Char := l.map Char.toLower

/-- Python `s.upper()`. -/
def toUpperL (l : List Char) : List Char := l.map Char.toUpper

/-! ## Exact rational arithmetic

Monetary values travel through the source as Python floats.  The
embedding idealizes them as exact rationals.  `Q` is a numerator /
positive-denominator pair kept in lowest terms by every operation, so
that structural (decidable) equality coincides with rational equality on
all values the pipeline produces, and every operation reduces inside the
kernel. -/

structure Q where
  num : Int
  den : Nat
deriving DecidableEq

/-- Normalize a fraction to lowest terms with a positive denominator. -/
def qNorm (n : Int) (d : Nat) : Q :=
  if d = 0 then ⟨0, 1⟩
  else
    let g := Nat.gcd n.natAbs d
    ⟨n / (g : Int), d / g⟩

def qOfNat (n : Nat) : Q := ⟨n, 1⟩

def qAdd (a b : Q) : Q := qNorm (a.num * b.den + b.num * a.den) (a.den * b.den)

def qSub (a b : Q) : Q := qNorm (a.num * b.den - b.num * a.den) (a.den * b.den)

def qMul (a b : Q) : Q := qNorm (a.num * b.num) (a.den * b.den)

def qNeg (a : Q) : Q := ⟨-a.num, a.den⟩

/-- Reciprocal; `0` maps to `0` (the pipeline guards its divisions, so
this case is never reached on the paths modelled here). -/
def qInv (a : Q) : Q :=
  if a.num = 0 then ⟨0, 1⟩
  else if 0 < a.num then ⟨(a.den : Int), a.num.natAbs⟩
  else ⟨-(a.den : Int), a.num.natAbs⟩

def qDiv (a b : Q) : Q := qMul a (qInv b)

/-- Strict order on `Q`; correct whenever denominators are positive,
which every pipeline value satisfies. -/
def qLtB (a b : Q) : Bool := decide (a.num * (b.den : Int) < b.num * (a.den : Int))

def qSum (l : List Q) : Q := l.foldl qAdd (qOfNat 0)

/-- Value of a list of decimal digits (most significant first). -/
def digitsToNat (ds : List Char) : Nat :=
  ds.foldl (fun a c => a * 10 + (c.toNat - 48)) 0

/-- Python `float(s)` on the plain decimal fragment: optional sign,
digits, optional `.` and fractional digits (auxiliary, unsigned part).
`float` also accepts surrounding whitespace, exponent notation and
`inf`/`nan` words; those forms do not occur in this pipeline's data and
are outside the model. -/
def parseUnsigned (cs : List Char) : Option Q :=
  let ip := cs.takeWhile Char.isDigit
  let rest := cs.dropWhile Char.isDigit
  match rest with
  | [] => if ip.isEmpty then none else some (qOfNat (digitsToNat ip))
  | '.' :: fp =>
    if fp.all Char.isDigit && !(ip.isEmpty && fp.isEmpty) then
      some (qAdd (qOfNat (digitsToNat ip)) (qDiv (qOfNat (digitsToNat fp)) (qOfNat (10 ^ fp.length))))
    else none
  | _ => none

/-- Python `float(s)` on the decimal fragment, with optional sign. -/
def parseRat (s : List Char) : Option Q :=
  match s with
  | '-' :: rest => (parseUnsigned rest).map qNeg
  | '+' :: rest => parseUnsigned rest
  | cs => parseUnsigned cs

/-! ## Calendar dates

`datetime.strptime(s, "%Y-%m-%d").date()` accepts 1-4 year digits and
1-2 month/day digits separated by `-`, and validates the result as a real
calendar date (month 1-12, day within the month, leap years included,
year at least 1).  `date` objects compare lexicographically on
(year, month, day). -/

structure Date where
  year : Nat
  month : Nat
  day : Nat
deriving DecidableEq

/-- Gregorian leap-year rule, as in Python's `datetime`. -/
def isLeap (y : Nat) : Bool :=
  (y % 4 == 0 && y % 100 != 0) || y % 400 == 0

def daysInMonth (y m : Nat) : Nat :=
  if m == 2 then (if isLeap y then 29 else 28)
  else if m == 4 || m == 6 || m == 9 || m == 11 then 30
  else 31

/-- `datetime.date` comparison: lexicographic on (year, month, day). -/
def dateLE (a b : Date) : Bool :=
  decide (a.year < b.year) ||
    (a.year == b.year &&
      (decide (a.month < b.month) ||
        (a.month == b.month && decide (a.day ≤ b.day))))

/-- `datetime.strptime(s, "%Y-%m-%d")`, returning `none` where Python
raises `ValueError`. -/
def parseDate (s : List Char) : Option Date :=
  match splitOnChar '-' s with
  | [ys, ms, ds] =>
    if ys ≠ [] ∧ ys.all Char.isDigit = true ∧ ys.length ≤ 4 ∧
       ms ≠ [] ∧ ms.all Char.isDigit = true ∧ ms.length ≤ 2 ∧
       ds ≠ [] ∧ ds.all Char.isDigit = true ∧ ds.length ≤ 2 then
      let y := digitsToNat ys
      let m := digitsToNat ms
      let d := digitsToNat ds
      if 1 ≤ y ∧ 1 ≤ m ∧ m ≤ 12 ∧ 1 ≤ d ∧ d ≤ daysInMonth y m then
        some ⟨y, m, d⟩
      else none
    else none
  | _ => none

/-! ## Transaction model

The `Document` class of the source (id, date, vendor, amount, gst, type);
its constructor performs no validation. -/

structure Document where
  id : List Char
  date : List Char
  vendor : List Char
  amount : Q
  gst : Q
  type : List Char
deriving DecidableEq

/-! ## Tabular (CSV) extractor

`extract_data_from_csv` iterates the rows of a pandas DataFrame.  A cell
of a present column is either a string or the float `nan` (pandas reads a
missing cell of a present column as `nan`); an absent column makes
`row.get(col, default)` return the default.  `CVal` is a cell value,
`Row` a row with every recognized column optional.

Scope note: `float(nan)` in Python returns the float `nan`, which then
poisons downstream totals with `nan`; `nan`-valued *numeric* cells have
no rational counterpart and are outside this model (mapped to a coercion
failure).  String-valued and absent cells — the cases the claims are
about — are modelled exactly. -/

inductive CVal where
  | s : List Char → CVal
  | nan : CVal
deriving DecidableEq

/-- Python `str(v)` on a cell value: `str(nan)` is the string `"nan"`. -/
def pyStr : CVal → List Char
  | CVal.s t => t
  | CVal.nan => "nan".data

structure Row where
  id : Option CVal
  invoice_no : Option CVal
  date : Option CVal
  vendor : Option CVal
  amount : Option CVal
  gst : Option CVal
  type : Option CVal
deriving DecidableEq

/-- `float(row.get(col, 0))`: absent column gives `float(0) = 0`. -/
def getFloat : Option CVal → Option Q
  | none => some (qOfNat 0)
  | some (CVal.s t) => parseRat t
  | some CVal.nan => none

/-- One row of `extract_data_from_csv`: the `try` block around the
`Document` construction — only the two `float` coercions can raise, and
a raising row is skipped (`none`).  `today` stands for
`datetime.now().strftime("%Y-%m-%d")` at extraction time, `idx` for the
DataFrame index of the row. -/
def parseCsvRow (today : List Char) (idx : Nat) (r : Row) : Option Document :=
  match getFloat r.amount, getFloat r.gst with
  | some a, some g =>
    some ⟨pyStr ((r.id).getD ((r.invoice_no).getD (CVal.s ("CSV-".data ++ (toString idx).data)))),
          pyStr ((r.date).getD (CVal.s today)),
          pyStr ((r.vendor).getD (CVal.s "Unknown".data)),
          a, g,
          toLowerL (pyStr ((r.type).getD (CVal.s "expense".data)))⟩
  | _, _ => none

/-- The row loop of `extract_data_from_csv`, carrying the DataFrame
index; failed rows are skipped (with a UI warning, a side effect outside
the model) and extraction continues. -/
def extractRows (today : List Char) (idx : Nat) : List Row → List Document
  | [] => []
  | r :: rs =>
    match parseCsvRow today idx r with
    | some d => d :: extractRows today (idx + 1) rs
    | none => extractRows today (idx + 1) rs

/-- `extract_data_from_csv` over the rows of the parsed file. -/
def extract_data_from_csv (today : List Char) (rows : List Row) : List Document :=
  extractRows today 0 rows

/-! ## Manual-entry extractor

The manual path of `main` reads the edited grid with fixed columns
(`row['ID']` etc., every column present) and does the same per-row
coercion and skip-on-error as the CSV path. -/

structure ManualRow where
  id : CVal
  date : CVal
  vendor : CVal
  amount : CVal
  gst : CVal
  type : CVal
deriving DecidableEq

/-- `float(v)` on a present cell (same scope note as `getFloat`). -/
def pyFloat : CVal → Option Q
  | CVal.s t => parseRat t
  | CVal.nan => none

/-- One row of the manual-entry loop in `main` (lines 401-413). -/
def parseManualRow (r : ManualRow) : Option Document :=
  match pyFloat r.amount, pyFloat r.gst with
  | some a, some g =>
    some ⟨pyStr r.id, pyStr r.date, pyStr r.vendor, a, g, toLowerL (pyStr r.type)⟩
  | _, _ => none

/-! ## Text-block (PDF) extractor

`extract_data_from_pdf` scans each page's text line by line through an
`if`/`elif` chain on the labels `Vendor:`, `Date:`, `Total:`, `GST:`
(substring tests); the numeric labels strip the label, the currency sign
and commas, then call `float`, whose `ValueError` propagates and aborts
the whole document's extraction.  A page is its extracted text. -/

structure PageFields where
  vendor : List Char
  date : List Char
  amount : Q
  gst : Q
deriving DecidableEq

/-- `line.replace(label, "").replace("₹", "").replace(",", "").strip()`. -/
def numValue (label line : List Char) : List Char :=
  stripL (replaceL [','] [] (replaceL ['₹'] [] (replaceL label [] line)))

/-- The `if`/`elif` chain of the page loop for one line, over the running
field state; `Except.error` is Python's `ValueError` from `float`. -/
def procLine (st : PageFields) (line : List Char) : Except (List Char) PageFields
  := if subListB "Vendor:".data line then
    Except.ok ⟨stripL (replaceL "Vendor:".data [] line), st.date, st.amount, st.gst⟩
  else if subListB "Date:".data line then
    Except.ok ⟨st.vendor, stripL (replaceL "Date:".data [] line), st.amount, st.gst⟩
  else if subListB "Total:".data line then
    match parseRat (numValue "Total:".data line) with
    | some a => Except.ok ⟨st.vendor, st.date, a, st.gst⟩
    | none => Except.error ("could not convert string to float: ".data ++ numValue "Total:".data line)
  else if subListB "GST:".data line then
    match parseRat (numValue "GST:".data line) with
    | some g => Except.ok ⟨st.vendor, st.date, st.amount, g⟩
    | none => Except.error ("could not convert string to float: ".data ++ numValue "GST:".data line)
  else Except.ok st

/-- Whether a line makes the `if`/`elif` chain raise: it reaches the
`Total:` (or `GST:`) branch and the stripped value fails `float`.  This
predicate is independent of the running field state. -/
def lineFails (line : List Char) : Bool :=
  if subListB "Vendor:".data line then false
  else if subListB "Date:".data line then false
  else if subListB "Total:".data line then (parseRat (numValue "Total:".data line)).isNone
  else if subListB "GST:".data line then (parseRat (numValue "GST:".data line)).isNone
  else false

/-- The line loop over one page. -/
def scanLines (st : PageFields) : List (List Char) → Except (List Char) PageFields
  | [] => Except.ok st
  | l :: ls =>
    match procLine st l with
    | Except.ok st2 => scanLines st2 ls
    | Except.error e => Except.error e

/-- One page of `extract_data_from_pdf`.  `hsh` stands for Python's
(seed-dependent) built-in `hash` on the page text; `today` for
`datetime.now().strftime("%Y-%m-%d")`.  The defaults are
vendor `"Unknown"`, date `today`, amount and gst `0`; the document id is
`"PDF-" + str(hash(text) % 1000000)`; the type is `"expense"` when the
page text contains `"Invoice"`, else `"income"`. -/
def extract_page (hsh : List Char → Nat) (today : List Char) (text : List Char) :
    Except (List Char) Document :=
  match scanLines ⟨"Unknown".data, today, qOfNat 0, qOfNat 0⟩ (splitOnChar '\n' text) with
  | Except.ok f =>
    Except.ok ⟨"PDF-".data ++ (toString (hsh text % 1000000)).data,
               f.date, f.vendor, f.amount, f.gst,
               if subListB "Invoice".data text then "expense".data else "income".data⟩
  | Except.error e => Except.error e

/-- `extract_data_from_pdf` over the pages of one uploaded document; the
first page error aborts the whole extraction. -/
def extract_data_from_pdf (hsh : List Char → Nat) (today : List Char) :
    List (List Char) → Except (List Char) (List Document)
  | [] => Except.ok []
  | p :: ps =>
    match extract_page hsh today p with
    | Except.ok d =>
      match extract_data_from_pdf hsh today ps with
      | Except.ok ds => Except.ok (d :: ds)
      | Except.error e => Except.error e
    | Except.error e => Except.error e

/-! ## Aggregator (`generate_audit_report`, lines 216-246 and 268-288)

The date filter, the income/expense totals, the derived ratios, the GST
subset and its compliance findings.  The synthesized report text itself
(string formatting) is not needed by the claims; the numeric and
list-valued content it renders is captured in `Metrics`. -/

/-- The `try`/`except` date filter: keep a document when its date parses
as `%Y-%m-%d` and lies in the closed window. -/
def inWindow (s e : Date) (d : Document) : Bool :=
  match parseDate d.date with
  | some dd => dateLE s dd && dateLE dd e
  | none => false

def filterDocs (docs : List Document) (s e : Date) : List Document :=
  docs.filter (inWindow s e)

/-- The amounts selected by `df[df['type'] == 'income']['amount']`. -/
def incomeAmounts (l : List Document) : List Q :=
  (l.filter (fun d => d.type = "income".data)).map Document.amount

/-- The amounts selected by `df[df['type'] == 'expense']['amount']`. -/
def expenseAmounts (l : List Document) : List Q :=
  (l.filter (fun d => d.type = "expense".data)).map Document.amount

/-- `df[df['type'] == 'income']['amount'].sum()`. -/
def sumIncome (l : List Document) : Q := qSum (incomeAmounts l)

/-- `df[df['type'] == 'expense']['amount'].sum()`. -/
def sumExpense (l : List Document) : Q := qSum (expenseAmounts l)

/-- `[doc for doc in filtered_docs if doc.gst > 0]`. -/
def gstDocs (l : List Document) : List Document :=
  l.filter (fun d => qLtB (qOfNat 0) d.gst)

/-- `sum(doc.gst for doc in gst_docs)`. -/
def sumGst (l : List Document) : Q := qSum ((gstDocs l).map Document.gst)

/-- `any(x in doc.id.upper() for x in ['GST', 'INV', 'BILL'])`. -/
def idHasToken (i : List Char) : Bool :=
  ["GST".data, "INV".data, "BILL".data].any (fun x => subListB x (toUpperL i))

/-- A compliance finding; the report renders `invalidId i` as
`"Invalid document ID: " + i` and `unusualGst g a` as
`"Unusual GST amount: Rs.g on Rs.a"` (string formatting abstracted). -/
inductive GstIssue where
  | invalidId : List Char → GstIssue
  | unusualGst : Q → Q → GstIssue
deriving DecidableEq

/-- The two appends of the per-document loop body (lines 277-281): the id
check first, then the `gst > amount * 0.3` check; a document can
contribute both.  `0.3` is modelled as the exact rational `3/10`. -/
def gstIssuesFor (d : Document) : List GstIssue :=
  (if idHasToken d.id then [] else [GstIssue.invalidId d.id]) ++
    (if qLtB (qMul d.amount (qNorm 3 10)) d.gst then [GstIssue.unusualGst d.gst d.amount] else [])

/-- The full `gst_issues` list accumulated over the GST subset. -/
def allGstIssues (l : List Document) : List GstIssue :=
  (gstDocs l).flatMap gstIssuesFor

/-- `gst_issues[:3]`: the findings the report actually prints. -/
def reportGstIssues (l : List Document) : List GstIssue :=
  (allGstIssues l).take 3

structure Metrics where
  total_invoices : Nat
  total_income : Q
  total_expense : Q
  net_balance : Q
  expense_rate : Q
  profit_margin : Q
  total_gst : Q
  gst_issues : List GstIssue
deriving DecidableEq

/-- The metric block of `generate_audit_report` (lines 228-236 and
268-288).  `expense_rate` is the source's `expense_ratio`.  When the
filtered list is empty, `pd.DataFrame([])` has no columns and
`df['type']` raises `KeyError: 'type'` before any total is computed;
this is the `Except.error` branch. -/
def computeMetrics (docs : List Document) (s e : Date) : Except (List Char) Metrics :=
  let fd := filterDocs docs s e
  if fd.isEmpty then Except.error "KeyError: type".data
  else
    let ti := sumIncome fd
    let te := sumExpense fd
    Except.ok ⟨fd.length, ti, te, qSub ti te,
      (if qLtB (qOfNat 0) ti then qMul (qDiv te ti) (qOfNat 100) else qOfNat 0),
      (if qLtB (qOfNat 0) ti then qMul (qDiv (qSub ti te) ti) (qOfNat 100) else qOfNat 0),
      sumGst fd, allGstIssues fd⟩

/-! ## Document renderer sanitization (`create_pdf.clean_text`)

The replacement table maps single characters to ASCII strings; since no
replacement value contains a key and each key is a single character, the
sequential `str.replace` passes of the source are extensionally the
character-wise expansion below.  The final
`encode('latin-1', 'replace').decode('latin-1')` keeps characters with
code point at most 255 and turns every other one into `?`. -/

def pdfReplacements : List (Char × List Char) :=
  [('📊', "[REPORT]".data), ('📅', "[DATE]".data), ('📌', "[SUMMARY]".data),
   ('📈', "[ANALYSIS]".data), ('🧾', "[GST]".data), ('🤖', "[AI]".data),
   ('✅', "[CHECK]".data), ('₹', "Rs.".data), ('‘', [Char.ofNat 39]), ('’', [Char.ofNat 39]),
   ('“', ['"']), ('”', ['"']), ('–', ['-']), ('—', ['-']), ('…', "...".data)]

/-- Expansion of one character through the replacement table. -/
def substChar (c : Char) : List Char :=
  match pdfReplacements.lookup c with
  | some v => v
  | none => [c]

/-- One character of `encode('latin-1', 'replace')`. -/
def latin1Sub (c : Char) : Char :=
  if c.toNat ≤ 255 then c else '?'

/-- `clean_text` of `create_pdf`: replacement table, then latin-1
round-trip with `'replace'` error handling.  A total function: the
sanitization never raises. -/
def clean_text (s : List Char) : List Char :=
  (s.flatMap substChar).map latin1Sub

/-! ## Report serving and cleanup (`main`, lines 444-453)

After `create_pdf` returns the temp-file path (the file exists:
`NamedTemporaryFile(delete=False)`), `main` runs, as plain sequential
statements with no `try`/`finally`:
`open(pdf_path)` + `st.download_button(...)` (the hand-off, which can
raise), then `os.unlink(pdf_path)`.  A raised exception aborts the
remaining statements of the sequence.  The state is whether the temp
file still exists. -/

inductive PyStep where
  | handOff : Except (List Char) Unit → PyStep
  | unlink : PyStep

/-- Effect of one statement on the file-exists flag. -/
def execStep : PyStep → Bool → Bool × Except (List Char) Unit
  | PyStep.handOff r, fs => (fs, r)
  | PyStep.unlink, _ => (false, Except.ok ())

/-- Run statements in order; an exception aborts the rest (the file
system state persists across the raise). -/
def runSteps : List PyStep → Bool → Bool × Except (List Char) Unit
  | [], fs => (fs, Except.ok ())
  | stp :: rest, fs =>
    match execStep stp fs with
    | (fs2, Except.ok _) => runSteps rest fs2
    | (fs2, Except.error e) => (fs2, Except.error e)

/-- The serving tail of `main`: hand-off then unlink, starting from an
existing temp file; `r` is the outcome of the hand-off step. -/
def mainServe (r : Except (List Char) Unit) : Bool × Except (List Char) Unit :=
  runSteps [PyStep.handOff r, PyStep.unlink] true

/-! ### Concrete values used by the scenario theorems -/

/-- The first transaction of the specification's end-to-end scenario. -/
def c2doc1 : Document :=
  ⟨"INV-101".data, "2023-06-05".data, "Client A".data,
   qOfNat 150000, qOfNat 27000, "income".data⟩

/-- The second transaction of the specification's end-to-end scenario. -/
def c2doc2 : Document :=
  ⟨"GSTIN-AB123".data, "2023-06-08".data, "Supplier X".data,
   qOfNat 50000, qOfNat 9000, "expense".data⟩

/-! ## Helper lemmas -/

/-- The row loop distributes over appending row lists, with the
DataFrame index advanced by the length of the first part. -/
theorem extractRows_append (today : List Char) (i : Nat) (l1 l2 : List Row) :
    extractRows today i (l1 ++ l2) =
      extractRows today i l1 ++ extractRows today (i + l1.length) l2 := by
  induction l1 generalizing i with
  | nil => simp [extractRows]
  | cons r rs ih =>
    simp only [List.cons_append, extractRows, List.append_eq, List.length_cons]
    have h2 : i + 1 + rs.length = i + (rs.length + 1) := by omega
    cases parseCsvRow today i r with
    | some d => rw [ih, h2]; rfl
    | none => rw [ih, h2]

/-- A row whose `amount` cell is a string that fails `float` is skipped,
whatever its DataFrame index. -/
theorem parseCsvRow_badAmount (today : List Char) (i : Nat) (r : Row) (t : List Char)
    (ha : r.amount = some (CVal.s t)) (hp : parseRat t = none) :
    parseCsvRow today i r = none := by
  unfold parseCsvRow
  rw [ha]
  simp [getFloat, hp]

/-- A failing line makes the `if`/`elif` chain raise, from any running
field state. -/
theorem procLine_error_of_lineFails (st : PageFields) (l : List Char)
    (h : lineFails l = true) : ∃ e, procLine st l = Except.error e := by
  unfold lineFails at h
  unfold procLine
  by_cases hv : subListB "Vendor:".data l = true
  · simp [hv] at h
  · simp only [hv] at h ⊢
    by_cases hd : subListB "Date:".data l = true
    · simp [hd] at h
    · simp only [hd] at h ⊢
      by_cases ht : subListB "Total:".data l = true
      · simp only [ht] at h ⊢
        simp only [Bool.if_true_left] at *
        cases hp : parseRat (numValue "Total:".data l) with
        | some a => rw [hp] at h; simp [Option.isNone] at h
        | none => simp [hp]
      · simp only [ht] at h ⊢
        by_cases hg : subListB "GST:".data l = true
        · simp only [hg] at h ⊢
          cases hp : parseRat (numValue "GST:".data l) with
          | some a => rw [hp] at h; simp [Option.isNone] at h
          | none => simp [hp]
        · simp [hg] at h

/-- If any line of the page fails, the page scan raises. -/
theorem scanLines_error_of_mem (ls : List (List Char)) (l : List Char)
    (hm : l ∈ ls) (hf : lineFails l = true) :
    ∀ st, ∃ e, scanLines st ls = Except.error e := by
  induction ls with
  | nil => cases hm
  | cons x xs ih =>
    intro st
    unfold scanLines
    rcases List.mem_cons.1 hm with h | h
    · subst h
      obtain ⟨e, he⟩ := procLine_error_of_lineFails st l hf
      rw [he]
      exact ⟨e, rfl⟩
    · cases hp : procLine st x with
      | ok st2 => exact ih h st2
      | error e => exact ⟨e, rfl⟩

/-- A page containing a failing line aborts that page's extraction. -/
theorem extract_page_error (hsh : List Char → Nat) (today text : List Char)
    (h : ∃ l ∈ splitOnChar '\n' text, lineFails l = true) :
    ∃ e, extract_page hsh today text = Except.error e := by
  obtain ⟨l, hm, hf⟩ := h
  obtain ⟨e, he⟩ := scanLines_error_of_mem _ l hm hf
    ⟨"Unknown".data, today, qOfNat 0, qOfNat 0⟩
  exact ⟨e, by unfold extract_page; rw [he]⟩

/-- An aborting page aborts the whole document's extraction. -/
theorem extract_pdf_error_of_mem (hsh : List Char → Nat) (today : List Char)
    (pages : List (List Char)) (p : List Char) (hm : p ∈ pages)
    (h : ∃ e, extract_page hsh today p = Except.error e) :
    ∃ e, extract_data_from_pdf hsh today pages = Except.error e := by
  induction pages with
  | nil => cases hm
  | cons x xs ih =>
    unfold extract_data_from_pdf
    rcases List.mem_cons.1 hm with hq | hq
    · subst hq
      obtain ⟨e, he⟩ := h
      rw [he]
      exact ⟨e, rfl⟩
    · cases hx : extract_page hsh today x with
      | ok d =>
        obtain ⟨e, he⟩ := ih hq
        rw [he]
        exact ⟨e, rfl⟩
      | error e => exact ⟨e, rfl⟩

/-- A line outside the `Date:` branch leaves the date field unchanged. -/
theorem procLine_keeps_date (st st2 : PageFields) (l : List Char)
    (hd : subListB "Date:".data l = false)
    (h : procLine st l = Except.ok st2) : st2.date = st.date := by
  unfold procLine at h
  by_cases hv : subListB "Vendor:".data l = true
  · simp only [hv, if_true] at h
    cases h
    rfl
  · simp only [hv, hd, Bool.false_eq_true, if_false] at h
    by_cases ht : subListB "Total:".data l = true
    · simp only [ht, if_true] at h
      cases hp : parseRat (numValue "Total:".data l) with
      | some a => rw [hp] at h; cases h; rfl
      | none => rw [hp] at h; cases h
    · simp only [ht, Bool.false_eq_true, if_false] at h
      by_cases hg : subListB "GST:".data l = true
      · simp only [hg, if_true] at h
        cases hp : parseRat (numValue "GST:".data l) with
        | some g => rw [hp] at h; cases h; rfl
        | none => rw [hp] at h; cases h
      · simp only [hg, Bool.false_eq_true, if_false] at h
        cases h
        rfl

/-- Without any `Date:` line, the scan keeps the initial date. -/
theorem scanLines_keeps_date (ls : List (List Char))
    (hall : ∀ l ∈ ls, subListB "Date:".data l = false) :
    ∀ st f, scanLines st ls = Except.ok f → f.date = st.date := by
  induction ls with
  | nil =>
    intro st f h
    unfold scanLines at h
    cases h
    rfl
  | cons x xs ih =>
    intro st f h
    unfold scanLines at h
    cases hp : procLine st x with
    | ok st2 =>
      rw [hp] at h
      have h1 := ih (fun l hl => hall l (List.mem_cons_of_mem x hl)) st2 f h
      have h2 := procLine_keeps_date st st2 x (hall x (List.mem_cons_self x xs)) hp
      rw [h1, h2]
    | error e => rw [hp] at h; cases h

/-- A contiguous run survives `List.map`. -/
theorem mapKeepsRun {α β : Type} (f : α → β) (l1 l2 : List α)
    (h : l1 <:+: l2) : l1.map f <:+: l2.map f := by
  obtain ⟨u, v, rfl⟩ := h
  exact ⟨u.map f, v.map f, by simp⟩

/-- The sanitized expansion of any input character occurs contiguously in
the cleaned text. -/
theorem substRunInClean (c : Char) (s : List Char) (h : c ∈ s) :
    (substChar c).map latin1Sub <:+: clean_text s := by
  obtain ⟨u, v, rfl⟩ := List.append_of_mem h
  unfold clean_text
  refine mapKeepsRun latin1Sub _ _ ?_
  refine ⟨u.flatMap substChar, v.flatMap substChar, ?_⟩
  simp [List.flatMap_append]

/-! ## Claims -/

/-- C1: the specification requires that an empty date-filtered subset is
not an error and yields zero-valued metrics with sentinel text, and the
source's `total_income > 0` guards show the same intent; but
`generate_audit_report` builds `pd.DataFrame([])` from the empty filtered
list, which has no columns, so `df[df['type'] == 'income']` raises
`KeyError: 'type'` before any metric or sentinel is produced.  Concrete
failing run: one transaction dated outside the window. -/
theorem c1_empty_filtered_raises :
    computeMetrics
        [⟨"INV-1".data, "2023-01-01".data, "Vendor".data, qOfNat 100, qOfNat 10, "income".data⟩]
        ⟨2023, 6, 1⟩ ⟨2023, 6, 30⟩ =
      Except.error "KeyError: type".data := by decide

/-- C2: the end-to-end scenario: the two spec transactions aggregated
over 2023-06-01..2023-06-30 give total_income 150000, total_expense
50000, net_balance 100000, expense ratio 100/3 (≈ 33.3), profit margin
200/3 (≈ 66.7), total GST 36000, and no compliance findings; both
approximations are within 1/20 of the quoted one-decimal values. -/
theorem c2_end_to_end :
    computeMetrics [c2doc1, c2doc2] ⟨2023, 6, 1⟩ ⟨2023, 6, 30⟩ =
        Except.ok ⟨2, qOfNat 150000, qOfNat 50000, qOfNat 100000,
          qNorm 100 3, qNorm 200 3, qOfNat 36000, []⟩ ∧
      qLtB (qSub (qNorm 200 3) (qNorm 667 10)) (qNorm 1 20) = true ∧
      qLtB (qSub (qNorm 667 10) (qNorm 200 3)) (qNorm 1 20) = true ∧
      qLtB (qSub (qNorm 100 3) (qNorm 333 10)) (qNorm 1 20) = true ∧
      qLtB (qSub (qNorm 333 10) (qNorm 100 3)) (qNorm 1 20) = true := by decide

/-- C3: a GST-subset transaction yields at least one compliance finding
exactly when its id misses all of GST/INV/BILL (case-insensitively) or
its gst exceeds 3/10 of its amount; the report prints at most the first
3 accumulated findings; the spec's two examples behave as quoted. -/
theorem c3_gst_compliance_findings :
    (∀ docs s e d, d ∈ gstDocs (filterDocs docs s e) →
      ((gstIssuesFor d ≠ []) ↔
        (idHasToken d.id = false ∨ qLtB (qMul d.amount (qNorm 3 10)) d.gst = true))) ∧
    (∀ l : List Document,
      (reportGstIssues l).length ≤ 3 ∧ reportGstIssues l <+: allGstIssues l) ∧
    gstIssuesFor ⟨"X1".data, "2023-06-05".data, "V".data,
      qOfNat 1000, qOfNat 400, "expense".data⟩ ≠ [] ∧
    gstIssuesFor ⟨"INV-1".data, "2023-06-05".data, "V".data,
      qOfNat 1000, qOfNat 250, "expense".data⟩ = [] := by
  refine ⟨?_, ?_, by decide, by decide⟩
  · intro docs s e d _
    cases h1 : idHasToken d.id <;>
      cases h2 : qLtB (qMul d.amount (qNorm 3 10)) d.gst <;>
        simp [gstIssuesFor, h1, h2]
  · intro l
    constructor
    · simp [reportGstIssues]
    · simpa [reportGstIssues] using List.take_prefix 3 (allGstIssues l)

/-- C3 witness: the flag criterion instantiated on a concrete filtered
GST transaction. -/
theorem c3_gst_compliance_findings_witness :
    (gstIssuesFor c2doc1 ≠ []) ↔
      (idHasToken c2doc1.id = false ∨
        qLtB (qMul c2doc1.amount (qNorm 3 10)) c2doc1.gst = true) :=
  c3_gst_compliance_findings.1 [c2doc1] ⟨2023, 6, 1⟩ ⟨2023, 6, 30⟩ c2doc1 (by decide)

/-- C4 counterexample: for the empty collection the filtered set has
zero total income, yet the aggregator returns no metrics at all — it
raises (empty DataFrame, `KeyError`), so the claim's universally
quantified statement fails at this input. -/
theorem c4_counterexample :
    sumIncome (filterDocs [] ⟨2023, 6, 1⟩ ⟨2023, 6, 30⟩) = qOfNat 0 ∧
    (computeMetrics [] ⟨2023, 6, 1⟩ ⟨2023, 6, 30⟩).isOk = false := by decide

/-- C4 (amended): for every collection whose date-filtered subset is
non-empty and has zero total income, the aggregator returns metrics with
expense ratio 0 and profit margin 0 — the guarded divisions are never
evaluated. -/
theorem c4_zero_income_zero_rates :
    ∀ docs s e, filterDocs docs s e ≠ [] →
      sumIncome (filterDocs docs s e) = qOfNat 0 →
      ∃ m, computeMetrics docs s e = Except.ok m ∧
        m.expense_rate = qOfNat 0 ∧ m.profit_margin = qOfNat 0 := by
  intro docs s e hne hz
  have he : (filterDocs docs s e).isEmpty = false := by
    cases hfd : filterDocs docs s e with
    | nil => exact absurd hfd hne
    | cons a l => rfl
  simp only [computeMetrics, he, Bool.false_eq_true, if_false, hz]
  have hq : qLtB (qOfNat 0) (qOfNat 0) = false := by decide
  simp only [hq, Bool.false_eq_true, if_false]
  exact ⟨_, rfl, rfl, rfl⟩

/-- C4 witness: a single in-window expense-only transaction — filtered
set non-empty, total income zero, both rates reported as zero. -/
theorem c4_zero_income_zero_rates_witness :
    filterDocs [⟨"INV-2".data, "2023-06-10".data, "W".data,
        qOfNat 500, qOfNat 0, "expense".data⟩] ⟨2023, 6, 1⟩ ⟨2023, 6, 30⟩ ≠ [] ∧
    sumIncome (filterDocs [⟨"INV-2".data, "2023-06-10".data, "W".data,
        qOfNat 500, qOfNat 0, "expense".data⟩] ⟨2023, 6, 1⟩ ⟨2023, 6, 30⟩) = qOfNat 0 ∧
    ∃ m, computeMetrics [⟨"INV-2".data, "2023-06-10".data, "W".data,
        qOfNat 500, qOfNat 0, "expense".data⟩] ⟨2023, 6, 1⟩ ⟨2023, 6, 30⟩ = Except.ok m ∧
      m.expense_rate = qOfNat 0 ∧ m.profit_margin = qOfNat 0 :=
  ⟨by decide, by decide, c4_zero_income_zero_rates _ _ _ (by decide) (by decide)⟩

/-- C6 counterexample: when the hand-off step raises, the sequential
code of `main` (no `try`/`finally`) never reaches `os.unlink`, so the
temporary file survives — the claimed delete-on-every-path fails. -/
theorem c6_counterexample :
    (mainServe (Except.error "connection reset".data)).1 = true := by decide

/-- C6 (amended): the temporary artifact is deleted exactly when the
hand-off step succeeds; on a raising hand-off the unlink statement is
skipped and the file remains. -/
theorem c6_cleanup_only_on_success :
    (mainServe (Except.ok ())).1 = false ∧
    ∀ e, (mainServe (Except.error e)).1 = true := by
  constructor
  · decide
  · intro e
    rfl

/-- C5: in the tabular channel a row whose amount string fails `float`
is skipped — extraction of the surrounding rows proceeds with their
original DataFrame indices, and the skipped row contributes no document
(hence nothing to any downstream total, which are functions of the
extracted list); in the PDF channel a page containing a label line whose
numeric value fails `float` aborts the whole document's extraction with
an error. -/
theorem c5_channel_error_handling :
    (∀ today i pre suf r t, r.amount = some (CVal.s t) → parseRat t = none →
      extractRows today i (pre ++ r :: suf) =
        extractRows today i pre ++ extractRows today (i + pre.length + 1) suf) ∧
    (∀ hsh today pages p, p ∈ pages →
      (∃ l ∈ splitOnChar '\n' p, lineFails l = true) →
      ∃ e, extract_data_from_pdf hsh today pages = Except.error e) := by
  constructor
  · intro today i pre suf r t ha hp
    rw [extractRows_append]
    have hr : parseCsvRow today (i + pre.length) r = none :=
      parseCsvRow_badAmount _ _ _ _ ha hp
    simp only [extractRows, hr]
  · intro hsh today pages p hm hex
    exact extract_pdf_error_of_mem hsh today pages p hm (extract_page_error hsh today p hex)

/-- C5 witness: a concrete three-row CSV batch whose middle row has the
unparseable amount `"12x4"`, and a concrete one-page PDF whose `Total:`
value is `"abc"`. -/
theorem c5_channel_error_handling_witness :
    extractRows "2026-10-12".data 0
        ([(⟨some (CVal.s "INV-1".data), none, some (CVal.s "2023-06-05".data),
            some (CVal.s "A".data), some (CVal.s "100".data), some (CVal.s "0".data),
            some (CVal.s "income".data)⟩ : Row)] ++
          (⟨some (CVal.s "INV-2".data), none, some (CVal.s "2023-06-06".data),
            some (CVal.s "B".data), some (CVal.s "12x4".data), some (CVal.s "0".data),
            some (CVal.s "expense".data)⟩ : Row) ::
          [(⟨some (CVal.s "INV-3".data), none, some (CVal.s "2023-06-07".data),
            some (CVal.s "C".data), some (CVal.s "300".data), some (CVal.s "0".data),
            some (CVal.s "expense".data)⟩ : Row)]) =
      extractRows "2026-10-12".data 0
        [(⟨some (CVal.s "INV-1".data), none, some (CVal.s "2023-06-05".data),
            some (CVal.s "A".data), some (CVal.s "100".data), some (CVal.s "0".data),
            some (CVal.s "income".data)⟩ : Row)] ++
        extractRows "2026-10-12".data (0 + 1 + 1)
          [(⟨some (CVal.s "INV-3".data), none, some (CVal.s "2023-06-07".data),
            some (CVal.s "C".data), some (CVal.s "300".data), some (CVal.s "0".data),
            some (CVal.s "expense".data)⟩ : Row)] ∧
    ∃ e, extract_data_from_pdf (fun _ => 0) "2026-10-12".data
        ["Vendor: ACME\nTotal: abc".data] = Except.error e :=
  ⟨c5_channel_error_handling.1 "2026-10-12".data 0 _ _ _ "12x4".data rfl (by decide),
   c5_channel_error_handling.2 (fun _ => 0) "2026-10-12".data _
     "Vendor: ACME\nTotal: abc".data (by decide) (by decide)⟩

/-- C7: the renderer's sanitization is a total function (it cannot
raise), every character it emits fits latin-1 (non-encodable characters
become `?` rather than failing), and whenever the input contains the
currency sign, a smart quote or an en/em dash, the output contains the
documented ASCII substitute. -/
theorem c7_clean_text_sanitizes :
    ∀ s : List Char,
      (∀ c ∈ clean_text s, c.toNat ≤ 255) ∧
      ('₹' ∈ s → "Rs.".data <:+: clean_text s) ∧
      ('“' ∈ s → ['"'] <:+: clean_text s) ∧
      ('”' ∈ s → ['"'] <:+: clean_text s) ∧
      ('‘' ∈ s → [Char.ofNat 39] <:+: clean_text s) ∧
      ('’' ∈ s → [Char.ofNat 39] <:+: clean_text s) ∧
      ('–' ∈ s → ['-'] <:+: clean_text s) ∧
      ('—' ∈ s → ['-'] <:+: clean_text s) := by
  intro s
  refine ⟨?_, ?_, ?_, ?_, ?_, ?_, ?_, ?_⟩
  · intro c hc
    simp only [clean_text] at hc
    obtain ⟨x, -, rfl⟩ := List.mem_map.1 hc
    unfold latin1Sub
    split
    · assumption
    · decide
  · intro h
    have hrun := substRunInClean '₹' s h
    rwa [show (substChar '₹').map latin1Sub = "Rs.".data from by decide] at hrun
  · intro h
    have hrun := substRunInClean '“' s h
    rwa [show (substChar '“').map latin1Sub = ['"'] from by decide] at hrun
  · intro h
    have hrun := substRunInClean '”' s h
    rwa [show (substChar '”').map latin1Sub = ['"'] from by decide] at hrun
  · intro h
    have hrun := substRunInClean '‘' s h
    rwa [show (substChar '‘').map latin1Sub = [Char.ofNat 39] from by decide] at hrun
  · intro h
    have hrun := substRunInClean '’' s h
    rwa [show (substChar '’').map latin1Sub = [Char.ofNat 39] from by decide] at hrun
  · intro h
    have hrun := substRunInClean '–' s h
    rwa [show (substChar '–').map latin1Sub = ['-'] from by decide] at hrun
  · intro h
    have hrun := substRunInClean '—' s h
    rwa [show (substChar '—').map latin1Sub = ['-'] from by decide] at hrun

/-- C7 witness: an input holding the currency sign, all four smart
quotes, both dashes and an emoji: every substitute appears in the
sanitized output. -/
theorem c7_clean_text_sanitizes_witness :
    "Rs.".data <:+: clean_text "₹x“y”z‘a’b–c—d😀".data ∧
    ['"'] <:+: clean_text "₹x“y”z‘a’b–c—d😀".data ∧
    [Char.ofNat 39] <:+: clean_text "₹x“y”z‘a’b–c—d😀".data ∧
    ['-'] <:+: clean_text "₹x“y”z‘a’b–c—d😀".data :=
  ⟨(c7_clean_text_sanitizes "₹x“y”z‘a’b–c—d😀".data).2.1 (by decide),
   (c7_clean_text_sanitizes "₹x“y”z‘a’b–c—d😀".data).2.2.1 (by decide),
   (c7_clean_text_sanitizes "₹x“y”z‘a’b–c—d😀".data).2.2.2.2.1 (by decide),
   (c7_clean_text_sanitizes "₹x“y”z‘a’b–c—d😀".data).2.2.2.2.2.2.1 (by decide)⟩

/-- C8: in both the tabular and the manual channel, a row whose type
cell lower-cases to `"income"` (so `"Income"` in any letter case) is
stored with type exactly `"income"`, and any stored document of type
`"income"` has its amount selected into the column the aggregator sums
as total income. -/
theorem c8_income_normalization :
    (∀ today i r t d, r.type = some (CVal.s t) → toLowerL t = "income".data →
      parseCsvRow today i r = some d → d.type = "income".data) ∧
    (∀ r t d, r.type = CVal.s t → toLowerL t = "income".data →
      parseManualRow r = some d → d.type = "income".data) ∧
    (∀ d l, d ∈ l → d.type = "income".data → d.amount ∈ incomeAmounts l) := by
  refine ⟨?_, ?_, ?_⟩
  · intro today i r t d ht hl hp
    unfold parseCsvRow at hp
    cases hA : getFloat r.amount with
    | none => rw [hA] at hp; cases hp
    | some a =>
      cases hG : getFloat r.gst with
      | none => rw [hA, hG] at hp; cases hp
      | some g =>
        rw [hA, hG] at hp
        cases hp
        show toLowerL (pyStr ((r.type).getD (CVal.s "expense".data))) = "income".data
        rw [ht, Option.getD_some, pyStr, hl]
  · intro r t d ht hl hp
    unfold parseManualRow at hp
    cases hA : pyFloat r.amount with
    | none => rw [hA] at hp; cases hp
    | some a =>
      cases hG : pyFloat r.gst with
      | none => rw [hA, hG] at hp; cases hp
      | some g =>
        rw [hA, hG] at hp
        cases hp
        show toLowerL (pyStr r.type) = "income".data
        rw [ht, pyStr, hl]
  · intro d l hm ht
    unfold incomeAmounts
    exact List.mem_map.2 ⟨d, List.mem_filter.2 ⟨hm, by simp [ht]⟩, rfl⟩

/-- C8 witness: the concrete row with type `"Income"` is stored as
`"income"` and its amount enters the income column. -/
theorem c8_income_normalization_witness :
    (⟨"INV-7".data, "2023-06-05".data, "C".data, qOfNat 100, qOfNat 0,
        "income".data⟩ : Document).type = "income".data ∧
    (⟨"INV-7".data, "2023-06-05".data, "C".data, qOfNat 100, qOfNat 0,
        "income".data⟩ : Document).amount ∈
      incomeAmounts [⟨"INV-7".data, "2023-06-05".data, "C".data, qOfNat 100, qOfNat 0,
        "income".data⟩] :=
  ⟨c8_income_normalization.1 "2026-10-12".data 0
      ⟨some (CVal.s "INV-7".data), none, some (CVal.s "2023-06-05".data),
       some (CVal.s "C".data), some (CVal.s "100".data), some (CVal.s "0".data),
       some (CVal.s "Income".data)⟩
      "Income".data _ rfl (by decide) (by decide),
   c8_income_normalization.2.2 _ _ (by decide) (by decide)⟩

/-- C9 counterexample: a row whose type COLUMN is present but whose cell
is missing (pandas `nan`) is not assigned `"expense"`: `row.get` returns
the `nan` value because the label exists, and `str(nan).lower()` stores
the type `"nan"`, which matches neither aggregation bucket. -/
theorem c9_counterexample :
    (parseCsvRow "2026-10-12".data 0
        ⟨some (CVal.s "INV-9".data), none, some (CVal.s "2023-06-05".data),
         some (CVal.s "V".data), some (CVal.s "100".data), some (CVal.s "0".data),
         some CVal.nan⟩).map Document.type = some "nan".data ∧
    some "nan".data ≠ some "expense".data := by decide

/-- C9 (amended): a row whose type COLUMN is absent is assigned the
default `"expense"` and its amount is selected into the column the
aggregator sums as total expense; a present column with a missing
(`nan`) cell instead yields the string `"nan"`. -/
theorem c9_missing_type_column :
    ∀ today i r d, r.type = none → parseCsvRow today i r = some d →
      d.type = "expense".data ∧ ∀ l, d ∈ l → d.amount ∈ expenseAmounts l := by
  intro today i r d ht hp
  unfold parseCsvRow at hp
  cases hA : getFloat r.amount with
  | none => rw [hA] at hp; cases hp
  | some a =>
    cases hG : getFloat r.gst with
    | none => rw [hA, hG] at hp; cases hp
    | some g =>
      rw [hA, hG] at hp
      cases hp
      have hty : toLowerL (pyStr ((r.type).getD (CVal.s "expense".data))) = "expense".data := by
        rw [ht, Option.getD_none, pyStr]
        decide
      refine ⟨hty, ?_⟩
      intro l hm
      unfold expenseAmounts
      exact List.mem_map.2 ⟨_, List.mem_filter.2 ⟨hm, by simp [hty]⟩, rfl⟩

/-- C9 witness: a concrete row with no type column parses to an
`"expense"` document whose amount enters the expense column. -/
theorem c9_missing_type_column_witness :
    (⟨"INV-8".data, "2023-06-06".data, "D".data, qOfNat 250, qOfNat 0,
        "expense".data⟩ : Document).type = "expense".data ∧
    (⟨"INV-8".data, "2023-06-06".data, "D".data, qOfNat 250, qOfNat 0,
        "expense".data⟩ : Document).amount ∈
      expenseAmounts [⟨"INV-8".data, "2023-06-06".data, "D".data, qOfNat 250, qOfNat 0,
        "expense".data⟩] :=
  ⟨(c9_missing_type_column "2026-10-12".data 0
      ⟨some (CVal.s "INV-8".data), none, some (CVal.s "2023-06-06".data),
       some (CVal.s "D".data), some (CVal.s "250".data), some (CVal.s "0".data), none⟩
      _ rfl (by decide)).1,
   (c9_missing_type_column "2026-10-12".data 0
      ⟨some (CVal.s "INV-8".data), none, some (CVal.s "2023-06-06".data),
       some (CVal.s "D".data), some (CVal.s "250".data), some (CVal.s "0".data), none⟩
      _ rfl (by decide)).2 _ (by decide)⟩

/-- C10 counterexample: in the tabular channel a present date COLUMN
with a missing (`nan`) cell is not assigned the extraction-time current
date: `row.get` returns the `nan` value, `str(nan)` stores the date
`"nan"`, which moreover never parses as `%Y-%m-%d`, so the record is
excluded from every date-filtered aggregation no matter when extraction
runs. -/
theorem c10_counterexample :
    (parseCsvRow "2026-10-12".data 0
        ⟨some (CVal.s "INV-10".data), none, some CVal.nan,
         some (CVal.s "V".data), some (CVal.s "100".data), some (CVal.s "0".data),
         some (CVal.s "income".data)⟩).map Document.date = some "nan".data ∧
    some "nan".data ≠ some "2026-10-12".data ∧
    parseDate "nan".data = none := by decide

/-- C10 (amended): a row whose date COLUMN is absent is assigned the
extraction-time current date, and a PDF page with no `Date:` line keeps
the extraction-time current date as its document date, so the record's
presence in a date-filtered window depends on when extraction runs; a
present date column with a missing cell instead yields `"nan"`. -/
theorem c10_missing_date_gets_today :
    (∀ today i r d, r.date = none → parseCsvRow today i r = some d → d.date = today) ∧
    (∀ hsh today text d,
      (∀ l ∈ splitOnChar '\n' text, subListB "Date:".data l = false) →
      extract_page hsh today text = Except.ok d → d.date = today) := by
  constructor
  · intro today i r d hd hp
    unfold parseCsvRow at hp
    cases hA : getFloat r.amount with
    | none => rw [hA] at hp; cases hp
    | some a =>
      cases hG : getFloat r.gst with
      | none => rw [hA, hG] at hp; cases hp
      | some g =>
        rw [hA, hG] at hp
        cases hp
        show pyStr ((r.date).getD (CVal.s today)) = today
        rw [hd, Option.getD_none, pyStr]
  · intro hsh today text d hall hp
    unfold extract_page at hp
    cases hs : scanLines ⟨"Unknown".data, today, qOfNat 0, qOfNat 0⟩ (splitOnChar '\n' text) with
    | ok f =>
      rw [hs] at hp
      cases hp
      exact scanLines_keeps_date _ hall _ f hs
    | error e => rw [hs] at hp; cases hp

/-- C10 witness: a concrete row with no date column and a concrete page
with no `Date:` line, both extracted on 2026-10-12, store that date. -/
theorem c10_missing_date_gets_today_witness :
    (⟨"INV-11".data, "2026-10-12".data, "E".data, qOfNat 50, qOfNat 0,
        "income".data⟩ : Document).date = "2026-10-12".data ∧
    (⟨"PDF-7".data, "2026-10-12".data, "ACME".data, qOfNat 1500, qOfNat 0,
        "income".data⟩ : Document).date = "2026-10-12".data :=
  ⟨c10_missing_date_gets_today.1 "2026-10-12".data 0
      ⟨some (CVal.s "INV-11".data), none, none, some (CVal.s "E".data),
       some (CVal.s "50".data), some (CVal.s "0".data), some (CVal.s "income".data)⟩
      _ rfl (by decide),
   c10_missing_date_gets_today.2 (fun _ => 7) "2026-10-12".data
      "Vendor: ACME\nTotal: 1500".data _ (by decide) (by decide)⟩
